import Mathlib

/-!
Verification of `reana_server/status.py` (REANA status reporting module).

The module is a catalog of read-only reporting queries: each status
provider class reads rows from the REANA database, objects from the
Kubernetes API, or the output of shell commands, and shapes them into
nested key-value summaries.

Shallow embedding conventions:
* database tables become lists of rows (structures); `query.filter(p).count()`
  becomes `(rows.filter p).length`;
* SQL comparisons against nullable columns follow SQL three-valued logic:
  a comparison with NULL is not satisfied, so such rows are filtered out;
* Python dicts become association lists built with `pyDictOfPairs`, which
  reproduces dict-comprehension semantics (first-insertion key position,
  later value wins);
* external processes (`uptime`, `du`, `df`) and Kubernetes API calls are
  inputs, bundled in an `Env` structure: a field of `Env` gives the data
  each call would return;
* Python code that can raise becomes `Option`/`Except`-valued.

Times are modelled as integers (seconds since an arbitrary epoch):
`timedelta(hours=12)` is `43200`, `timedelta(minutes=20)` is `1200`,
`timedelta(days=1)` is `86400`.
-/

namespace Reana

/-! ### Data model (external `reana_db` schema, as consumed by `status.py`) -/

/-- `reana_db.models.RunStatus`: lifecycle state of a workflow or
interactive session. -/
inductive RunStatus where
  | created
  | running
  | finished
  | failed
  | deleted
  | stopped
  | queued
  | pending
deriving DecidableEq, Repr

/-- `reana_db.models.JobStatus`: lifecycle state of a job. -/
inductive JobStatus where
  | created
  | running
  | finished
  | failed
  | stopped
  | queued
deriving DecidableEq, Repr

/-- Python `JobStatus.<member>.name`: the enum member's name as a string. -/
def JobStatus.pyName : JobStatus → String
  | .created => "created"
  | .running => "running"
  | .finished => "finished"
  | .failed => "failed"
  | .stopped => "stopped"
  | .queued => "queued"

/-- `reana_db.models.ResourceType`: quota resource kinds. -/
inductive ResourceType where
  | cpu
  | disk
deriving DecidableEq, Repr

/-- A `reana_db.models.Workflow` row, restricted to the columns read by
`status.py`.  `run_started_at`, `updated` and `git_repo` are nullable
columns, hence `Option`. -/
structure Workflow where
  status : RunStatus
  restart : Bool
  run_started_at : Option Int
  updated : Option Int
  git_repo : Option String
deriving DecidableEq, Repr

/-- A `reana_db.models.InteractiveSession` row (only `status` is read). -/
structure InteractiveSession where
  status : RunStatus
deriving DecidableEq, Repr

/-- A `reana_db.models.Job` row, restricted to the columns read by
`status.py`.  `compute_backend` is a nullable string column. -/
structure Job where
  status : JobStatus
  compute_backend : Option String
deriving DecidableEq, Repr

/-- A `reana_db.models.UserResource` row after the join
`Session.query(UserResource).join(UserResource.resource)`: the joined
`Resource` contributes `type_` and `unit`, the joined `User` contributes
`email`. -/
structure UserResource where
  email : String
  resource_type : ResourceType
  unit : String
  quota_used : Nat
  quota_limit : Nat
deriving DecidableEq, Repr

/-! ### SQL comparison semantics for nullable columns -/

/-- SQL `column <= bound` on a nullable column: `NULL <= bound` is NULL,
which does not satisfy a `filter`. -/
def sqlLe : Option Int → Int → Bool
  | none, _ => false
  | some v, bound => v ≤ bound

/-- SQL `column != value` on a nullable string column: `NULL != value` is
NULL under three-valued logic, which does not satisfy a `filter`. -/
def sqlNeStr : Option String → String → Bool
  | none, _ => false
  | some s, v => s ≠ v

/-- SQL `column == value` on a nullable string column: `NULL == value` is
NULL, which does not satisfy a `filter`. -/
def sqlEqStr : Option String → String → Bool
  | none, _ => false
  | some s, v => s = v

/-! ### Python helpers -/

/-- Python dict insertion `d[k] = v`: an existing key keeps its position
and gets the new value, a fresh key is appended. -/
def pyDictInsert {α : Type} (d : List (String × α)) (k : String) (v : α) :
    List (String × α) :=
  if (d.map Prod.fst).contains k then
    d.map (fun p => if p.1 = k then (k, v) else p)
  else
    d ++ [(k, v)]

/-- A Python dict displayed/comprehended from a sequence of key-value
pairs: keys are inserted in order, duplicate keys collapse with the last
value winning. -/
def pyDictOfPairs {α : Type} (ps : List (String × α)) : List (String × α) :=
  ps.foldl (fun d p => pyDictInsert d p.1 p.2) []

/-- Python truthiness of an optional string (`if compute_backend:`):
`None` and the empty string are falsy. -/
def pyTruthyStr : Option String → Bool
  | none => false
  | some s => s ≠ ""

/-- ASCII case folding of one character. -/
def pyCharLower (c : Char) : Char :=
  if 'A' ≤ c ∧ c ≤ 'Z' then Char.ofNat (c.toNat + 32) else c

/-- Python `str.lower()` on the strings this module lowercases (backend
and phase names, all ASCII; Python's full Unicode folding agrees with
ASCII folding on them). -/
def pyLower (s : String) : String :=
  String.mk (s.data.map pyCharLower)

/-- Python `str.startswith(pre)`. -/
def pyStartsWith (s pre : String) : Bool :=
  pre.data.isPrefixOf s.data

/-! ### WorkflowsStatus queries -/

/-- `WorkflowsStatus.get_workflows_by_status(status)`:
`Session.query(Workflow).filter(Workflow.status == status).count()`. -/
def get_workflows_by_status (rows : List Workflow) (status : RunStatus) : Nat :=
  (rows.filter (fun w => w.status == status)).length

/-- `WorkflowsStatus.restarted_workflows()`:
`Session.query(Workflow).filter(Workflow.restart).count()`. -/
def restarted_workflows (rows : List Workflow) : Nat :=
  (rows.filter (fun w => w.restart)).length

/-- `WorkflowsStatus.stuck_in_running_workflows()`: running workflows whose
`run_started_at` and `updated` both lie at or before
`datetime.now() - timedelta(hours=12)`. -/
def stuck_in_running_workflows (rows : List Workflow) (now : Int) : Nat :=
  let inactivity_threshold := now - 43200
  (((rows.filter (fun w => w.status == RunStatus.running)).filter
      (fun w => sqlLe w.run_started_at inactivity_threshold)).filter
      (fun w => sqlLe w.updated inactivity_threshold)).length

/-- `WorkflowsStatus.stuck_in_pending_workflows()`: pending workflows whose
`updated` lies at or before `datetime.now() - timedelta(minutes=20)`. -/
def stuck_in_pending_workflows (rows : List Workflow) (now : Int) : Nat :=
  let inactivity_threshold := now - 1200
  ((rows.filter (fun w => w.status == RunStatus.pending)).filter
      (fun w => sqlLe w.updated inactivity_threshold)).length

/-- `WorkflowsStatus.git_workflows()`:
`Session.query(Workflow).filter(Workflow.git_repo != "").count()`. -/
def git_workflows (rows : List Workflow) : Nat :=
  (rows.filter (fun w => sqlNeStr w.git_repo "")).length

/-- `WorkflowsStatus.get_status()`: the seven-counter summary mapping. -/
def workflows_get_status (rows : List Workflow) (now : Int) :
    List (String × Nat) :=
  pyDictOfPairs
    [("running", get_workflows_by_status rows RunStatus.running),
     ("finished", get_workflows_by_status rows RunStatus.finished),
     ("stuck in running", stuck_in_running_workflows rows now),
     ("stuck in pending", stuck_in_pending_workflows rows now),
     ("queued", get_workflows_by_status rows RunStatus.queued),
     ("restarts", restarted_workflows rows),
     ("git_source", git_workflows rows)]

/-! ### InteractiveSessionsStatus -/

/-- `InteractiveSessionsStatus.get_active()`: count of interactive sessions
whose status is not in `[stopped, deleted, failed]`
(`InteractiveSession.status.notin_(non_active_statuses)`). -/
def get_active (rows : List InteractiveSession) : Nat :=
  let non_active_statuses :=
    [RunStatus.stopped, RunStatus.deleted, RunStatus.failed]
  (rows.filter (fun s => !(non_active_statuses.contains s.status))).length

/-- `InteractiveSessionsStatus.get_status()`. -/
def interactive_sessions_get_status (rows : List InteractiveSession) :
    List (String × Nat) :=
  pyDictOfPairs [("active", get_active rows)]

/-! ### QuotaUsageStatus -/

/-- The SQL ordering key
`desc(UserResource.quota_used * 100.0 / UserResource.quota_limit)`,
computed as an exact rational (the database evaluates the expression in
its numeric type; exactness is immaterial to the claims proved below). -/
def pctKey (u : UserResource) : ℚ :=
  (u.quota_used : ℚ) * 100 / (u.quota_limit : ℚ)

/-- One formatted entry produced by `QuotaUsageStatus.format_user_data`. -/
structure UserData where
  email : String
  used : String
  limit : String
  percentage : String
deriving DecidableEq, Repr

/-- `QuotaUsageStatus.format_user_data(users)`.  The unit-aware formatter
`ResourceUnit.human_readable_unit` (external `reana_db` code) and the
percentage helper `get_usage_percentage` (defined outside this module) are
taken as parameters `hru` and `upct`; no claim constrains their values. -/
def format_user_data (hru : String → Nat → String)
    (upct : Nat → Nat → String) (users : List UserResource) : List UserData :=
  users.map (fun u =>
    { email := u.email,
      used := hru u.unit u.quota_used,
      limit := hru u.unit u.quota_limit,
      percentage := upct u.quota_used u.quota_limit })

/-- The row selection of `QuotaUsageStatus.get_top_five_percentage`:
filter by resource type (the join), filter `quota_limit != 0`, order by
descending percentage, `limit(5)`.  SQL guarantees only the ordering, not
which stable permutation; `mergeSort` realises one compliant order. -/
def get_top_five_percentage_users (rows : List UserResource)
    (resource_type : ResourceType) : List UserResource :=
  ((((rows.filter (fun u => u.resource_type == resource_type)).filter
      (fun u => u.quota_limit != 0)).mergeSort
      (fun a b => decide (pctKey b ≤ pctKey a))).take 5)

/-- The row selection of `QuotaUsageStatus.get_top_five`: filter by
resource type (the join), order by `UserResource.quota_used.desc()`,
`limit(5)`.  No `quota_limit` filter. -/
def get_top_five_users (rows : List UserResource)
    (resource_type : ResourceType) : List UserResource :=
  (((rows.filter (fun u => u.resource_type == resource_type)).mergeSort
      (fun a b => decide (b.quota_used ≤ a.quota_used))).take 5)

/-- `QuotaUsageStatus.get_top_five_percentage(resource_type)`. -/
def get_top_five_percentage (rows : List UserResource)
    (resource_type : ResourceType) (hru : String → Nat → String)
    (upct : Nat → Nat → String) : List UserData :=
  format_user_data hru upct (get_top_five_percentage_users rows resource_type)

/-- `QuotaUsageStatus.get_top_five(resource_type)`. -/
def get_top_five (rows : List UserResource) (resource_type : ResourceType)
    (hru : String → Nat → String) (upct : Nat → Nat → String) :
    List UserData :=
  format_user_data hru upct (get_top_five_users rows resource_type)

/-- `QuotaUsageStatus.get_status()`. -/
def quota_get_status (rows : List UserResource)
    (hru : String → Nat → String) (upct : Nat → Nat → String) :
    List (String × List UserData) :=
  pyDictOfPairs
    [("top_five_disk", get_top_five rows ResourceType.disk hru upct),
     ("top_five_cpu", get_top_five rows ResourceType.cpu hru upct),
     ("top_five_disk_percentage",
       get_top_five_percentage rows ResourceType.disk hru upct),
     ("top_five_cpu_percentage",
       get_top_five_percentage rows ResourceType.cpu hru upct)]

/-! ### NodesStatus

`status.py` handles the metrics call with `except ApiException`, but the
module never binds the name `ApiException`: its imports are exactly the
ones listed in `statusModuleGlobals` below, and `ApiException` is not a
Python builtin.  Python evaluates the expression in an `except` clause
only when an exception reaches it, so the handler itself raises
`NameError: name 'ApiException' is not defined`, which propagates to the
caller.  The embedding keeps the guard on `statusModuleGlobals` so that
this semantics is visible rather than hard-coded. -/

/-- The names bound at module level in `reana_server/status.py`: the
imported names (lines 11-41 of the source) plus the classes and the
dispatch table defined by the module itself.  `ApiException` is absent. -/
def statusModuleGlobals : List String :=
  ["logging", "subprocess", "datetime", "timedelta", "SessionActivity",
   "REANA_COMPONENT_PREFIX", "REANA_INFRASTRUCTURE_KUBERNETES_NAMESPACE",
   "REANA_RUNTIME_KUBERNETES_NAMESPACE", "SHARED_VOLUME_PATH",
   "kubernetes_memory_to_bytes", "current_k8s_corev1_api_client",
   "current_k8s_custom_objects_api_client", "Session", "InteractiveSession",
   "Job", "JobStatus", "Resource", "ResourceType", "ResourceUnit",
   "RunStatus", "User", "UserResource", "Workflow", "get_usage_percentage",
   "desc", "REANAStatus", "InteractiveSessionsStatus", "SystemStatus",
   "StorageStatus", "UsersStatus", "WorkflowsStatus", "QuotaUsageStatus",
   "NodesStatus", "PodsStatus", "JobsStatus", "STATUS_OBJECT_TYPES"]

/-- Python exceptions that the nodes code can raise. -/
inductive PyError where
  | apiException (msg : String)
  | keyError (key : String)
  | nameError (nm : String)
  | zeroDivision
deriving DecidableEq, Repr

/-- A Kubernetes node as read by `status.py`: `node.metadata.name`,
`node.status.capacity["memory"]`, and `spec.unschedulable` (the field the
server-side selector `spec.unschedulable=true` matches). -/
structure NodeInfo where
  name : String
  memory_capacity : String
  unschedulable : Bool
deriving DecidableEq, Repr

/-- One item of the `metrics.k8s.io` response:
`node_metric["metadata"]["name"]` and `node_metric["usage"]["memory"]`. -/
structure NodeMetric where
  name : String
  memory_usage : String
deriving DecidableEq, Repr

/-- The per-node value dict built by `NodesStatus.get_memory_usage`. -/
structure MemEntry where
  capacity : String
  usage : Option String
  percentage : Option String
deriving DecidableEq, Repr

/-- The body of the metrics loop for one `node_metric`: store the usage,
then compute `round(usage_bytes / capacity_bytes * 100)` and store it as
a percentage string.  `result[node_name]` raises `KeyError` when the
metric names a node absent from the node list; a zero capacity raises
`ZeroDivisionError`.  Mathlib `round` rounds halves up where Python
rounds them to even; no claim depends on an exact-half value. -/
def memUpdate (k2b : String → Nat) (result : List (String × MemEntry))
    (m : NodeMetric) : Except PyError (List (String × MemEntry)) :=
  match result.lookup m.name with
  | none => .error (.keyError m.name)
  | some entry =>
      if k2b entry.capacity = 0 then .error .zeroDivision
      else
        let node_usage_percentage : ℤ :=
          round ((k2b m.memory_usage : ℚ) / (k2b entry.capacity : ℚ) * 100)
        let entry2 : MemEntry :=
          { entry with
            usage := some m.memory_usage,
            percentage := some (toString node_usage_percentage ++ "%") }
        .ok (result.map (fun q => if q.1 = m.name then (q.1, entry2) else q))

/-- `NodesStatus.get_memory_usage()`.  `metrics` is the outcome of the
`metrics.k8s.io` call: `.error msg` means the call raised
`ApiException(msg)`.  The trailing `match` is the `except ApiException`
clause, including the evaluation of the (unbound) handler name. -/
def get_memory_usage (k2b : String → Nat) (nodes : List NodeInfo)
    (metrics : Except String (List NodeMetric)) :
    Except PyError (List (String × MemEntry)) :=
  let result := pyDictOfPairs (nodes.map (fun n =>
    (n.name,
      ({ capacity := n.memory_capacity, usage := none,
         percentage := none } : MemEntry))))
  let body : Except PyError (List (String × MemEntry)) :=
    match metrics with
    | .error msg => .error (.apiException msg)
    | .ok ms => ms.foldlM (memUpdate k2b) result
  match body with
  | .ok r => .ok r
  | .error e =>
      if statusModuleGlobals.contains "ApiException" then
        match e with
        | .apiException _ => .ok []
        | e1 => .error e1
      else .error (.nameError "ApiException")

/-- Python `memory.get(key)` rendered inside an f-string: `None` when the
key is absent. -/
def pyOptStr : Option String → String
  | none => "None"
  | some s => s

/-- `NodesStatus.get_friendly_memory_usage()`: an empty dict is falsy, so
it yields `""`; otherwise one indented line per node. -/
def get_friendly_memory_usage (k2b : String → Nat) (nodes : List NodeInfo)
    (metrics : Except String (List NodeMetric)) : Except PyError String :=
  (get_memory_usage k2b nodes metrics).map (fun memory_usage =>
    if memory_usage.isEmpty then ""
    else
      memory_usage.foldl (fun acc p =>
        acc ++ "\n  " ++ p.1 ++ ": " ++ pyOptStr p.2.usage ++ "/" ++
          p.2.capacity ++ " (" ++ pyOptStr p.2.percentage ++ ")") "")

/-- `NodesStatus.get_unschedulable_nodes()`: node names matched by the
field selector `spec.unschedulable=true`. -/
def get_unschedulable_nodes (nodes : List NodeInfo) : List String :=
  (nodes.filter (fun n => n.unschedulable)).map (fun n => n.name)

/-- The two-key dict returned by `NodesStatus.get_status()`. -/
structure NodesSummary where
  unschedulable_nodes : List String
  memory_usage : String
deriving DecidableEq, Repr

/-- `NodesStatus.get_status()`: an exception from
`get_friendly_memory_usage` propagates. -/
def nodes_get_status (k2b : String → Nat) (nodes : List NodeInfo)
    (metrics : Except String (List NodeMetric)) :
    Except PyError NodesSummary :=
  (get_friendly_memory_usage k2b nodes metrics).map (fun mem =>
    { unschedulable_nodes := get_unschedulable_nodes nodes,
      memory_usage := mem })

/-! ### PodsStatus -/

/-- `PodsStatus.__init__`: the fixed phase vocabulary, with the source's
misspelling `"Suceeded"` preserved. -/
def pods_statuses : List String :=
  ["Running", "Pending", "Suceeded", "Failed", "Unknown"]

/-- `REANAStatus.__init__` builds the Python set
`{REANA_INFRASTRUCTURE_KUBERNETES_NAMESPACE, REANA_RUNTIME_KUBERNETES_NAMESPACE}`:
one element when the two constants coincide, two otherwise.  Set iteration
order is unspecified in Python; a canonical order is chosen here, which
affects neither the key set nor any key's value. -/
def reana_namespaces (infra runtime : String) : List String :=
  if infra = runtime then [infra] else [infra, runtime]

/-- `PodsStatus.get_pods_by_status(status, namespace)`: `env.pod_listing ns
phase` is the name list the API returns for
`list_namespaced_pod(ns, field_selector="status.phase=<phase>")`. -/
def get_pods_by_status (pod_listing : String → String → List String)
    (status ns : String) : List String :=
  pod_listing ns status

/-- `PodsStatus.get_friendly_pods_by_status(status, namespace)`:
`"\n  ".join(["", *pods])`. -/
def get_friendly_pods_by_status (pod_listing : String → String → List String)
    (status ns : String) : String :=
  String.intercalate "\n  " ("" :: get_pods_by_status pod_listing status ns)

/-- `PodsStatus.get_status()`: the dict comprehension over
`(namespace, status)` pairs, outer loop over the namespace set. -/
def pods_get_status (infra runtime : String)
    (pod_listing : String → String → List String) : List (String × String) :=
  pyDictOfPairs ((reana_namespaces infra runtime).flatMap (fun ns =>
    pods_statuses.map (fun status =>
      (ns ++ "_" ++ pyLower status ++ "_pods",
        get_friendly_pods_by_status pod_listing status ns))))

/-! ### JobsStatus -/

/-- `JobsStatus.__init__`: the fixed compute-backend vocabulary. -/
def jobs_compute_backends : List String := ["Kubernetes", "HTCondor", "Slurm"]

/-- `JobsStatus.__init__`: the fixed job-status vocabulary. -/
def jobs_statuses : List JobStatus :=
  [JobStatus.running, JobStatus.finished, JobStatus.failed, JobStatus.queued]

/-- `JobsStatus.get_jobs_by_status_and_compute_backend(status, compute_backend)`:
the backend filter is added only when `compute_backend` is truthy. -/
def get_jobs_by_status_and_compute_backend (rows : List Job)
    (status : JobStatus) (compute_backend : Option String) : Nat :=
  let query := rows.filter (fun j => j.status == status)
  let query :=
    if pyTruthyStr compute_backend then
      query.filter (fun j => sqlEqStr j.compute_backend
        (compute_backend.getD ""))
    else query
  query.length

/-- `JobsStatus.get_k8s_jobs_by_status(status)`: pods of the runtime
namespace in the given phase whose name starts with
`f"{REANA_COMPONENT_PREFIX}-run-job"`. -/
def get_k8s_jobs_by_status (pod_listing : String → String → List String)
    (runtime_ns component_pfx : String) (status : String) : List String :=
  (pod_listing runtime_ns status).filter
    (fun podName => pyStartsWith podName (component_pfx ++ "-run-job"))

/-- `JobsStatus.get_status()`: the nested dict comprehension followed by
the `job_statuses["kubernetes_api"] = ...` assignment. -/
def jobs_get_status (rows : List Job)
    (pod_listing : String → String → List String)
    (runtime_ns component_pfx : String) :
    List (String × List (String × Nat)) :=
  let job_statuses := pyDictOfPairs (jobs_compute_backends.map (fun cb =>
    (pyLower cb, pyDictOfPairs (jobs_statuses.map (fun st =>
      (st.pyName, get_jobs_by_status_and_compute_backend rows st (some cb)))))))
  pyDictInsert job_statuses "kubernetes_api"
    [("running",
       (get_k8s_jobs_by_status pod_listing runtime_ns component_pfx
         "Running").length),
     ("pending",
       (get_k8s_jobs_by_status pod_listing runtime_ns component_pfx
         "Pending").length)]

/-! ### SystemStatus, UsersStatus, StorageStatus -/

/-- Python `str.rstrip("\r\n")`: drop every trailing carriage return or
newline. -/
def pyRstripCRLF (s : String) : String :=
  String.mk ((s.data.reverse.dropWhile (fun c => c == '\r' || c == '\n')).reverse)

/-- `REANAStatus.execute_cmd(cmd)`:
`subprocess.check_output(cmd).decode().rstrip("\r\n")`.  `exec_output`
gives the decoded stdout each command would produce; a failing command
propagates `CalledProcessError`, which no claim exercises. -/
def execute_cmd (exec_output : List String → String) (cmd : List String) :
    String :=
  pyRstripCRLF (exec_output cmd)

/-- `SystemStatus.uptime()`. -/
def uptime (exec_output : List String → String) : String :=
  execute_cmd exec_output ["uptime", "-p"]

/-- `SystemStatus.get_status()`. -/
def system_get_status (exec_output : List String → String) :
    List (String × String) :=
  pyDictOfPairs [("uptime", uptime exec_output)]

/-- `UsersStatus.active_web_users()`:
`Session.query(SessionActivity).count()` — the rows are opaque here. -/
def active_web_users (session_activities : List Unit) : Nat :=
  session_activities.length

/-- `UsersStatus.get_status()`. -/
def users_get_status (session_activities : List Unit) :
    List (String × Nat) :=
  pyDictOfPairs [("active_web_users", active_web_users session_activities)]

/-- The slice of a `reana_db` `User` model that `status.py` reads:
only `user.workspace_path` (in `StorageStatus._get_path`). -/
structure PyUser where
  workspace_path : String
deriving DecidableEq, Repr

/-- `StorageStatus._get_path()`: the user's workspace path when a user was
given (a model instance is truthy), else `SHARED_VOLUME_PATH + "/users"`. -/
def storage_get_path (shared_volume_path : String) (user : Option PyUser) :
    String :=
  match user with
  | some u => u.workspace_path
  | none => shared_volume_path ++ "/users"

/-- Python whitespace (the characters `str.split()` splits on). -/
def pyWhitespaceChar (c : Char) : Bool :=
  c == ' ' || c == '\t' || c == '\n' || c == '\r' || c == '\x0b' || c == '\x0c'

/-- Split a character list at every separator character, keeping empty
segments (the splitting step shared by `str.split` and `splitlines`). -/
def splitOnPred (p : Char → Bool) : List Char → List (List Char)
  | [] => [[]]
  | c :: rest =>
      match splitOnPred p rest with
      | [] => if p c then [[], [c]] else [[c]]
      | g :: gs => if p c then [] :: g :: gs else (c :: g) :: gs

/-- Python `str.split()` with no argument: split on whitespace runs,
dropping empty tokens. -/
def pySplitWs (s : String) : List String :=
  ((splitOnPred pyWhitespaceChar s.data).map String.mk).filter
    (fun t => t ≠ "")

/-- Python `str.splitlines()` on the strings this module produces: after
`execute_cmd` has stripped trailing newlines, it splits at `'\n'`; an
empty string yields no lines (so a subsequent index raises). -/
def pySplitLines (s : String) : List String :=
  if s = "" then []
  else (splitOnPred (fun c => c == '\n') s.data).map String.mk


/-- `StorageStatus.users_directory_size()`: `du -h --max-depth=0 <path>`,
first whitespace-separated token of the output (`output.split()[0]`;
`none` models the `IndexError` on empty output). -/
def users_directory_size (exec_output : List String → String)
    (shared_volume_path : String) (user : Option PyUser) : Option String :=
  let cmd := ["du", "-h", "--max-depth=0",
    storage_get_path shared_volume_path user]
  let output := execute_cmd exec_output cmd
  (pySplitWs output).head?

/-- `StorageStatus.shared_volume_health()`: run `df -h <volume>`, look up
the `Used`, `Avail` and `Use%` columns by header name, format as
`"<used>/<avail> (<pct>)"`.  `none` models the `IndexError`/`ValueError`
raised when a line, a header or a value is missing. -/
def shared_volume_health (exec_output : List String → String)
    (shared_volume_path : String) : Option String := do
  let output := pySplitLines
    (execute_cmd exec_output ["df", "-h", shared_volume_path])
  let headerLine ← output.get? 0
  let valueLine ← output.get? 1
  let headers := pySplitWs headerLine
  let values := pySplitWs valueLine
  let used_index ← headers.indexOf? "Used"
  let available_index ← headers.indexOf? "Avail"
  let use_percentage_index ← headers.indexOf? "Use%"
  let used ← values.get? used_index
  let avail ← values.get? available_index
  let pct ← values.get? use_percentage_index
  return used ++ "/" ++ avail ++ " (" ++ pct ++ ")"

/-- `StorageStatus.get_status()`. -/
def storage_get_status (exec_output : List String → String)
    (shared_volume_path : String) (user : Option PyUser) :
    Option (List (String × String)) := do
  let uds ← users_directory_size exec_output shared_volume_path user
  let svh ← shared_volume_health exec_output shared_volume_path
  return pyDictOfPairs
    [("user_directory_size", uds), ("shared_volume_health", svh)]

/-! ### Constructor state and external environment

`REANAStatus.__init__` stores `from_` (default `now - timedelta(days=1)`),
`until` (default `now`) and `user` on the instance; every provider method
reads external data at call time.  `Env` bundles one consistent snapshot
of that external data, so that two provider calls "over the same external
data" are two calls with the same `Env`. -/

/-- The instance state set up by `REANAStatus.__init__`. -/
structure REANAState where
  from_ : Int
  until_ : Int
  user : Option PyUser
deriving DecidableEq, Repr

/-- `REANAStatus.__init__(from_, until, user)`: `from_ or (now - 1 day)`,
`until or now` (a `datetime` is always truthy, so `or` is `getD`). -/
def reana_status_init (now : Int) (from_ until_ : Option Int)
    (user : Option PyUser) : REANAState :=
  { from_ := from_.getD (now - 86400),
    until_ := until_.getD now,
    user := user }

/-- One snapshot of every external data source `status.py` consumes. -/
structure Env where
  now : Int
  shared_volume_path : String
  infrastructure_ns : String
  runtime_ns : String
  component_pfx : String
  exec_output : List String → String
  workflows : List Workflow
  interactive_sessions : List InteractiveSession
  session_activities : List Unit
  jobs : List Job
  user_resources : List UserResource
  nodes : List NodeInfo
  node_metrics : Except String (List NodeMetric)
  pod_listing : String → String → List String
  human_readable_unit : String → Nat → String
  usage_percentage : Nat → Nat → String
  k8s_memory_to_bytes : String → Nat

/-- `InteractiveSessionsStatus.get_status()` as a method: the instance
state is in scope but unread. -/
def InteractiveSessionsStatus.get_status (st : REANAState) (env : Env) :
    List (String × Nat) :=
  let _ := st
  interactive_sessions_get_status env.interactive_sessions

/-- `SystemStatus.get_status()` as a method. -/
def SystemStatus.get_status (st : REANAState) (env : Env) :
    List (String × String) :=
  let _ := st
  system_get_status env.exec_output

/-- `StorageStatus.get_status()` as a method: the only provider that reads
`self.user` (through `_get_path`). -/
def StorageStatus.get_status (st : REANAState) (env : Env) :
    Option (List (String × String)) :=
  storage_get_status env.exec_output env.shared_volume_path st.user

/-- `UsersStatus.get_status()` as a method. -/
def UsersStatus.get_status (st : REANAState) (env : Env) :
    List (String × Nat) :=
  let _ := st
  users_get_status env.session_activities

/-- `WorkflowsStatus.get_status()` as a method. -/
def WorkflowsStatus.get_status (st : REANAState) (env : Env) :
    List (String × Nat) :=
  let _ := st
  workflows_get_status env.workflows env.now

/-- `QuotaUsageStatus.get_status()` as a method. -/
def QuotaUsageStatus.get_status (st : REANAState) (env : Env) :
    List (String × List UserData) :=
  let _ := st
  quota_get_status env.user_resources env.human_readable_unit
    env.usage_percentage

/-- `NodesStatus.get_status()` as a method. -/
def NodesStatus.get_status (st : REANAState) (env : Env) :
    Except PyError NodesSummary :=
  let _ := st
  nodes_get_status env.k8s_memory_to_bytes env.nodes env.node_metrics

/-- `PodsStatus.get_status()` as a method. -/
def PodsStatus.get_status (st : REANAState) (env : Env) :
    List (String × String) :=
  let _ := st
  pods_get_status env.infrastructure_ns env.runtime_ns env.pod_listing

/-- `JobsStatus.get_status()` as a method. -/
def JobsStatus.get_status (st : REANAState) (env : Env) :
    List (String × List (String × Nat)) :=
  let _ := st
  jobs_get_status env.jobs env.pod_listing env.runtime_ns env.component_pfx

/-- `StorageStatus.get_status()` as a function of the chosen path only:
the factoring through `_get_path` that the user argument is claimed to be
limited to. -/
def storage_get_status_of_path (exec_output : List String → String)
    (shared_volume_path : String) (path : String) :
    Option (List (String × String)) := do
  let output := execute_cmd exec_output ["du", "-h", "--max-depth=0", path]
  let uds ← (pySplitWs output).head?
  let svh ← shared_volume_health exec_output shared_volume_path
  return pyDictOfPairs
    [("user_directory_size", uds), ("shared_volume_health", svh)]

/-! ### Helper lemmas -/

/-- `sqlLe` holds exactly on present values at or below the bound. -/
theorem sqlLe_iff (o : Option Int) (b : Int) :
    sqlLe o b = true ↔ ∃ t, o = some t ∧ t ≤ b := by
  cases o <;> simp [sqlLe]

/-- `sqlNeStr` holds exactly on present values different from `v`. -/
theorem sqlNeStr_iff (o : Option String) (v : String) :
    sqlNeStr o v = true ↔ ∃ s, o = some s ∧ s ≠ v := by
  cases o <;> simp [sqlNeStr]

instance decExSomeLe {o : Option Int} {b : Int} :
    Decidable (∃ t, o = some t ∧ t ≤ b) :=
  decidable_of_iff _ (sqlLe_iff o b)

instance decExSomeNe {o : Option String} {v : String} :
    Decidable (∃ s, o = some s ∧ s ≠ v) :=
  decidable_of_iff _ (sqlNeStr_iff o v)

/-! ### Claim theorems -/

/-- C3: for every set of workflow rows, `stuck_in_running_workflows()`
counts exactly the rows with status `running` whose run-start time and
last-update time are both at or before `now - 12h`; a row failing either
time condition (in particular a row with a NULL timestamp) is excluded,
even when the other condition holds. -/
theorem stuck_in_running_counts_both_conditions (rows : List Workflow)
    (now : Int) :
    stuck_in_running_workflows rows now =
      (rows.filter (fun w : Workflow => decide (w.status = RunStatus.running ∧
        (∃ t, w.run_started_at = some t ∧ t ≤ now - 43200) ∧
        (∃ t, w.updated = some t ∧ t ≤ now - 43200)))).length ∧
    (∀ w : Workflow, w.status = RunStatus.running →
      sqlLe w.run_started_at (now - 43200) = true →
      sqlLe w.updated (now - 43200) = false →
      stuck_in_running_workflows [w] now = 0) ∧
    (∀ w : Workflow, w.status = RunStatus.running →
      sqlLe w.run_started_at (now - 43200) = false →
      sqlLe w.updated (now - 43200) = true →
      stuck_in_running_workflows [w] now = 0) := by
  refine ⟨?_, ?_, ?_⟩
  · simp only [stuck_in_running_workflows, List.filter_filter]
    congr 1
    apply List.filter_congr
    intro w _
    rw [Bool.eq_iff_iff]
    simp only [Bool.and_eq_true, sqlLe_iff, beq_iff_eq, decide_eq_true_eq]
    tauto
  · intro w hs h1 h2
    simp [stuck_in_running_workflows, List.filter, hs, h1, h2]
  · intro w hs h1 h2
    simp [stuck_in_running_workflows, List.filter, hs, h1, h2]

/-- A closed instance of the C3 exclusion clauses: a running workflow
started 13 hours ago but updated 1 hour ago is not counted, and one
updated 13 hours ago but started 1 hour ago is not counted either. -/
theorem stuck_in_running_counts_both_conditions_witness :
    stuck_in_running_workflows
      [{ status := RunStatus.running, restart := false,
         run_started_at := some 53200, updated := some 96400,
         git_repo := none }] 100000 = 0 ∧
    stuck_in_running_workflows
      [{ status := RunStatus.running, restart := false,
         run_started_at := some 96400, updated := some 53200,
         git_repo := none }] 100000 = 0 := by
  constructor
  · exact (stuck_in_running_counts_both_conditions
      [{ status := RunStatus.running, restart := false,
         run_started_at := some 53200, updated := some 96400,
         git_repo := none }] 100000).2.1
      { status := RunStatus.running, restart := false,
        run_started_at := some 53200, updated := some 96400,
        git_repo := none } rfl (by decide) (by decide)
  · exact (stuck_in_running_counts_both_conditions
      [{ status := RunStatus.running, restart := false,
         run_started_at := some 96400, updated := some 53200,
         git_repo := none }] 100000).2.2
      { status := RunStatus.running, restart := false,
        run_started_at := some 96400, updated := some 53200,
        git_repo := none } rfl (by decide) (by decide)

/-- C8: for every set of workflow rows, `stuck_in_pending_workflows()`
counts exactly the rows with status `pending` whose last-update time is at
or before `now - 20min`; no condition on the run-start time is applied
(replacing every row's `run_started_at` leaves the count unchanged). -/
theorem stuck_in_pending_counts_update_only (rows : List Workflow)
    (now : Int) :
    stuck_in_pending_workflows rows now =
      (rows.filter (fun w : Workflow => decide (w.status = RunStatus.pending ∧
        (∃ t, w.updated = some t ∧ t ≤ now - 1200)))).length ∧
    (∀ g : Workflow → Option Int,
      stuck_in_pending_workflows
        (rows.map (fun w => { w with run_started_at := g w })) now =
        stuck_in_pending_workflows rows now) := by
  constructor
  · simp only [stuck_in_pending_workflows, List.filter_filter]
    congr 1
    apply List.filter_congr
    intro w _
    rw [Bool.eq_iff_iff]
    simp only [Bool.and_eq_true, sqlLe_iff, beq_iff_eq, decide_eq_true_eq]
    tauto
  · intro g
    simp only [stuck_in_pending_workflows, List.filter_filter,
      List.filter_map, List.length_map]
    rfl

/-- C9: for every set of interactive-session rows, `get_active()` counts
the sessions whose status is none of `stopped`, `deleted`, `failed`, and
`get_status()` returns the single-key mapping `{"active": <count>}`. -/
theorem interactive_sessions_active_count (rows : List InteractiveSession) :
    get_active rows =
      (rows.filter (fun s : InteractiveSession => decide (s.status ≠ RunStatus.stopped ∧
        s.status ≠ RunStatus.deleted ∧ s.status ≠ RunStatus.failed))).length ∧
    interactive_sessions_get_status rows = [("active", get_active rows)] := by
  constructor
  · simp only [get_active]
    congr 1
    apply List.filter_congr
    intro s _
    rw [Bool.eq_iff_iff]
    simp [not_or]
  · rfl

/-- C10: for every set of workflow rows, `git_workflows()` counts exactly
the rows whose `git_repo` is present and non-empty; a NULL `git_repo` does
not satisfy the SQL filter `git_repo != ''` under three-valued logic, so
such a row is excluded. -/
theorem git_workflows_excludes_null (rows : List Workflow) :
    git_workflows rows =
      (rows.filter (fun w : Workflow =>
        decide (∃ s, w.git_repo = some s ∧ s ≠ ""))).length ∧
    (∀ w : Workflow, w.git_repo = none → git_workflows [w] = 0) ∧
    (∀ w : Workflow, w.git_repo = some "" → git_workflows [w] = 0) := by
  refine ⟨?_, ?_, ?_⟩
  · simp only [git_workflows]
    congr 1
    apply List.filter_congr
    intro w _
    rw [Bool.eq_iff_iff]
    simp [sqlNeStr_iff]
  · intro w hw
    simp [git_workflows, List.filter, sqlNeStr, hw]
  · intro w hw
    simp [git_workflows, List.filter, sqlNeStr, hw]

/-- A closed instance of the C10 exclusion clauses: a workflow with a NULL
git-repo reference is not counted, nor is one with an empty reference. -/
theorem git_workflows_excludes_null_witness :
    git_workflows
      [{ status := RunStatus.created, restart := false,
         run_started_at := none, updated := none, git_repo := none }] = 0 ∧
    git_workflows
      [{ status := RunStatus.created, restart := false,
         run_started_at := none, updated := none, git_repo := some "" }] = 0 := by
  constructor
  · exact (git_workflows_excludes_null
      [{ status := RunStatus.created, restart := false,
         run_started_at := none, updated := none, git_repo := none }]).2.1
      { status := RunStatus.created, restart := false,
        run_started_at := none, updated := none, git_repo := none } rfl
  · exact (git_workflows_excludes_null
      [{ status := RunStatus.created, restart := false,
         run_started_at := none, updated := none, git_repo := some "" }]).2.2
      { status := RunStatus.created, restart := false,
        run_started_at := none, updated := none, git_repo := some "" } rfl

/-- C1 (divergence): the module never binds the name `ApiException`, so
when the `metrics.k8s.io` call raises, the `except ApiException` clause
itself raises `NameError`, which propagates to the caller of
`get_memory_usage()` (and hence of `get_friendly_memory_usage()` and
`get_status()`) instead of producing the empty mapping or empty string;
`get_unschedulable_nodes()` does not consult the metrics outcome. -/
theorem metrics_api_failure_propagates (k2b : String → Nat)
    (nodes : List NodeInfo) (msg : String) :
    get_memory_usage k2b nodes (Except.error msg) =
      Except.error (PyError.nameError "ApiException") ∧
    get_memory_usage k2b nodes (Except.error msg) ≠ Except.ok [] ∧
    get_friendly_memory_usage k2b nodes (Except.error msg) =
      Except.error (PyError.nameError "ApiException") ∧
    get_friendly_memory_usage k2b nodes (Except.error msg) ≠
      Except.ok "" ∧
    nodes_get_status k2b nodes (Except.error msg) =
      Except.error (PyError.nameError "ApiException") := by
  have hglob : statusModuleGlobals.contains "ApiException" = false := by decide
  have h1 : get_memory_usage k2b nodes (Except.error msg) =
      Except.error (PyError.nameError "ApiException") := by
    unfold get_memory_usage
    rw [hglob]
    rfl
  have h2 : get_friendly_memory_usage k2b nodes (Except.error msg) =
      Except.error (PyError.nameError "ApiException") := by
    unfold get_friendly_memory_usage
    rw [h1]
    rfl
  refine ⟨h1, ?_, h2, ?_, ?_⟩
  · rw [h1]
    simp
  · rw [h2]
    simp
  · unfold nodes_get_status
    rw [h2]
    rfl

/-- C5: for every provider, `get_status()` is independent of the `from_`
and `until` constructor arguments (for eight of the nine providers it is
independent of the whole constructor state, user included); for
`StorageStatus` it is independent of `from_`/`until` at a fixed user, and
the user is consulted only through the path `_get_path()` chooses: the
result factors through that path. -/
theorem get_status_ignores_window_and_user :
    (∀ st1 st2 : REANAState, ∀ env : Env,
      InteractiveSessionsStatus.get_status st1 env =
        InteractiveSessionsStatus.get_status st2 env) ∧
    (∀ st1 st2 : REANAState, ∀ env : Env,
      SystemStatus.get_status st1 env = SystemStatus.get_status st2 env) ∧
    (∀ st1 st2 : REANAState, ∀ env : Env,
      UsersStatus.get_status st1 env = UsersStatus.get_status st2 env) ∧
    (∀ st1 st2 : REANAState, ∀ env : Env,
      WorkflowsStatus.get_status st1 env =
        WorkflowsStatus.get_status st2 env) ∧
    (∀ st1 st2 : REANAState, ∀ env : Env,
      QuotaUsageStatus.get_status st1 env =
        QuotaUsageStatus.get_status st2 env) ∧
    (∀ st1 st2 : REANAState, ∀ env : Env,
      NodesStatus.get_status st1 env = NodesStatus.get_status st2 env) ∧
    (∀ st1 st2 : REANAState, ∀ env : Env,
      PodsStatus.get_status st1 env = PodsStatus.get_status st2 env) ∧
    (∀ st1 st2 : REANAState, ∀ env : Env,
      JobsStatus.get_status st1 env = JobsStatus.get_status st2 env) ∧
    (∀ f1 u1 f2 u2 : Int, ∀ user : Option PyUser, ∀ env : Env,
      StorageStatus.get_status ⟨f1, u1, user⟩ env =
        StorageStatus.get_status ⟨f2, u2, user⟩ env) ∧
    (∀ st : REANAState, ∀ env : Env,
      StorageStatus.get_status st env =
        storage_get_status_of_path env.exec_output env.shared_volume_path
          (storage_get_path env.shared_volume_path st.user)) :=
  by
  refine ⟨?_, ?_, ?_, ?_, ?_, ?_, ?_, ?_, ?_, ?_⟩ <;> intros <;> rfl

/-- C6: for every set of job rows and pod listings, `JobsStatus.get_status()`
has exactly the four top-level keys `kubernetes`, `htcondor`, `slurm`,
`kubernetes_api`; each backend key maps to the four per-status counts
(`running`, `finished`, `failed`, `queued`); `kubernetes_api` maps to the
lengths of the live `Running`/`Pending` job-pod name lists. -/
theorem jobs_get_status_shape (rows : List Job)
    (pod_listing : String → String → List String)
    (runtime_ns component_pfx : String) :
    jobs_get_status rows pod_listing runtime_ns component_pfx =
      [("kubernetes",
         [("running", get_jobs_by_status_and_compute_backend rows
             JobStatus.running (some "Kubernetes")),
          ("finished", get_jobs_by_status_and_compute_backend rows
             JobStatus.finished (some "Kubernetes")),
          ("failed", get_jobs_by_status_and_compute_backend rows
             JobStatus.failed (some "Kubernetes")),
          ("queued", get_jobs_by_status_and_compute_backend rows
             JobStatus.queued (some "Kubernetes"))]),
       ("htcondor",
         [("running", get_jobs_by_status_and_compute_backend rows
             JobStatus.running (some "HTCondor")),
          ("finished", get_jobs_by_status_and_compute_backend rows
             JobStatus.finished (some "HTCondor")),
          ("failed", get_jobs_by_status_and_compute_backend rows
             JobStatus.failed (some "HTCondor")),
          ("queued", get_jobs_by_status_and_compute_backend rows
             JobStatus.queued (some "HTCondor"))]),
       ("slurm",
         [("running", get_jobs_by_status_and_compute_backend rows
             JobStatus.running (some "Slurm")),
          ("finished", get_jobs_by_status_and_compute_backend rows
             JobStatus.finished (some "Slurm")),
          ("failed", get_jobs_by_status_and_compute_backend rows
             JobStatus.failed (some "Slurm")),
          ("queued", get_jobs_by_status_and_compute_backend rows
             JobStatus.queued (some "Slurm"))]),
       ("kubernetes_api",
         [("running", (get_k8s_jobs_by_status pod_listing runtime_ns
             component_pfx "Running").length),
          ("pending", (get_k8s_jobs_by_status pod_listing runtime_ns
             component_pfx "Pending").length)])] ∧
    (jobs_get_status rows pod_listing runtime_ns component_pfx).length = 4 ∧
    (jobs_get_status rows pod_listing runtime_ns component_pfx).map
      Prod.fst = ["kubernetes", "htcondor", "slurm", "kubernetes_api"] ∧
    (∀ p ∈ jobs_get_status rows pod_listing runtime_ns component_pfx,
      p.1 ≠ "kubernetes_api" → p.2.length = 4) := by
  have h : jobs_get_status rows pod_listing runtime_ns component_pfx =
      [("kubernetes",
         [("running", get_jobs_by_status_and_compute_backend rows
             JobStatus.running (some "Kubernetes")),
          ("finished", get_jobs_by_status_and_compute_backend rows
             JobStatus.finished (some "Kubernetes")),
          ("failed", get_jobs_by_status_and_compute_backend rows
             JobStatus.failed (some "Kubernetes")),
          ("queued", get_jobs_by_status_and_compute_backend rows
             JobStatus.queued (some "Kubernetes"))]),
       ("htcondor",
         [("running", get_jobs_by_status_and_compute_backend rows
             JobStatus.running (some "HTCondor")),
          ("finished", get_jobs_by_status_and_compute_backend rows
             JobStatus.finished (some "HTCondor")),
          ("failed", get_jobs_by_status_and_compute_backend rows
             JobStatus.failed (some "HTCondor")),
          ("queued", get_jobs_by_status_and_compute_backend rows
             JobStatus.queued (some "HTCondor"))]),
       ("slurm",
         [("running", get_jobs_by_status_and_compute_backend rows
             JobStatus.running (some "Slurm")),
          ("finished", get_jobs_by_status_and_compute_backend rows
             JobStatus.finished (some "Slurm")),
          ("failed", get_jobs_by_status_and_compute_backend rows
             JobStatus.failed (some "Slurm")),
          ("queued", get_jobs_by_status_and_compute_backend rows
             JobStatus.queued (some "Slurm"))]),
       ("kubernetes_api",
         [("running", (get_k8s_jobs_by_status pod_listing runtime_ns
             component_pfx "Running").length),
          ("pending", (get_k8s_jobs_by_status pod_listing runtime_ns
             component_pfx "Pending").length)])] := rfl
  refine ⟨h, ?_, ?_, ?_⟩
  · rw [h]
    rfl
  · rw [h]
    rfl
  · rw [h]
    intro p hp hne
    simp only [List.mem_cons, List.not_mem_nil, or_false] at hp
    rcases hp with rfl | rfl | rfl | rfl
    · rfl
    · rfl
    · rfl
    · exact absurd rfl hne

/-- C4: for every set of user-resource rows and every resource type,
`get_top_five_percentage` selects no row with `quota_limit = 0`, returns
at most 5 rows, ordered by descending `quota_used * 100 / quota_limit`;
`get_top_five` applies no zero-limit filter (a matching zero-limit row is
included) and returns at most 5 rows ordered by descending raw
`quota_used`. -/
theorem quota_top_five_properties (rows : List UserResource)
    (resource_type : ResourceType) (hru : String → Nat → String)
    (upct : Nat → Nat → String) :
    (∀ u ∈ get_top_five_percentage_users rows resource_type,
      u.quota_limit ≠ 0) ∧
    (get_top_five_percentage rows resource_type hru upct).length ≤ 5 ∧
    (get_top_five_percentage_users rows resource_type).Pairwise
      (fun a b => pctKey b ≤ pctKey a) ∧
    get_top_five_percentage rows resource_type hru upct =
      format_user_data hru upct
        (get_top_five_percentage_users rows resource_type) ∧
    (get_top_five rows resource_type hru upct).length ≤ 5 ∧
    (get_top_five_users rows resource_type).Pairwise
      (fun a b => b.quota_used ≤ a.quota_used) ∧
    (∀ u : UserResource, u.resource_type = resource_type →
      u.quota_limit = 0 →
      u ∈ get_top_five_users [u] resource_type ∧
        get_top_five_percentage_users [u] resource_type = []) := by
  refine ⟨?_, ?_, ?_, rfl, ?_, ?_, ?_⟩
  · intro u hu
    have h1 : u ∈ ((rows.filter
        (fun v => v.resource_type == resource_type)).filter
        (fun v => v.quota_limit != 0)).mergeSort
        (fun a b => decide (pctKey b ≤ pctKey a)) :=
      List.mem_of_mem_take hu
    have h2 := List.mem_mergeSort.mp h1
    have h3 := (List.mem_filter.mp h2).2
    simpa using h3
  · simp only [get_top_five_percentage, format_user_data, List.length_map]
    exact List.length_take_le _ _
  · have hs := @List.sorted_mergeSort UserResource
      (fun a b : UserResource => decide (pctKey b ≤ pctKey a))
      (fun a b c hab hbc => by
        simp only [decide_eq_true_eq] at *
        exact le_trans hbc hab)
      (fun a b => by
        simp only [Bool.or_eq_true, decide_eq_true_eq]
        exact le_total (pctKey b) (pctKey a))
      ((rows.filter (fun v => v.resource_type == resource_type)).filter
        (fun v => v.quota_limit != 0))
    have := List.Pairwise.sublist (List.take_sublist 5 _) hs
    exact this.imp (fun h => by simpa using h)
  · simp only [get_top_five, format_user_data, List.length_map]
    exact List.length_take_le _ _
  · have hs := @List.sorted_mergeSort UserResource
      (fun a b : UserResource => decide (b.quota_used ≤ a.quota_used))
      (fun a b c hab hbc => by
        simp only [decide_eq_true_eq] at *
        exact le_trans hbc hab)
      (fun a b => by
        simp only [Bool.or_eq_true, decide_eq_true_eq]
        exact le_total b.quota_used a.quota_used)
      (rows.filter (fun v => v.resource_type == resource_type))
    have := List.Pairwise.sublist (List.take_sublist 5 _) hs
    exact this.imp (fun h => by simpa using h)
  · intro u ht h0
    constructor
    · unfold get_top_five_users
      have hf : ([u].filter (fun v => v.resource_type == resource_type)) =
          [u] := by
        simp [List.filter, ht]
      rw [hf, List.take_of_length_le (by rw [List.length_mergeSort]; simp)]
      exact List.mem_mergeSort.mpr (List.mem_singleton_self u)
    · unfold get_top_five_percentage_users
      have hf : ([u].filter (fun v => v.resource_type == resource_type)) =
          [u] := by
        simp [List.filter, ht]
      rw [hf]
      have hz : ([u].filter (fun v => v.quota_limit != 0)) = [] := by
        simp [List.filter, h0]
      rw [hz, List.mergeSort_nil]
      rfl

/-- A closed instance of the C4 contrast clause: a cpu row with
`quota_used = 7` and `quota_limit = 0` is returned by `get_top_five` (no
zero-limit filter) and filtered out by `get_top_five_percentage`. -/
theorem quota_top_five_properties_witness :
    ({ email := "u@example.org", resource_type := ResourceType.cpu,
       unit := "cpu", quota_used := 7, quota_limit := 0 } : UserResource) ∈
      get_top_five_users
        [{ email := "u@example.org", resource_type := ResourceType.cpu,
           unit := "cpu", quota_used := 7, quota_limit := 0 }]
        ResourceType.cpu ∧
    get_top_five_percentage_users
      [{ email := "u@example.org", resource_type := ResourceType.cpu,
         unit := "cpu", quota_used := 7, quota_limit := 0 }]
      ResourceType.cpu = [] :=
  (quota_top_five_properties
    [{ email := "u@example.org", resource_type := ResourceType.cpu,
       unit := "cpu", quota_used := 7, quota_limit := 0 }]
    ResourceType.cpu (fun _ _ => "") (fun _ _ => "")).2.2.2.2.2.2
    { email := "u@example.org", resource_type := ResourceType.cpu,
      unit := "cpu", quota_used := 7, quota_limit := 0 } rfl rfl

/-- C7: when `df -h` prints the header
`Filesystem Size Used Avail Use% Mounted` and the single data row
`/dev/sda1 100G 40G 60G 40% /data`, `shared_volume_health()` returns
`"40G/60G (40%)"`; the columns are found by header name, not position (a
reordered header yields the same result), and in general whenever the
output parses into a header line and a value line with `Used`, `Avail`,
`Use%` columns present, the result is `"<used>/<avail> (<pct>)"`. -/
theorem shared_volume_health_by_header (exec_output : List String → String)
    (svp : String) :
    (exec_output ["df", "-h", svp] =
        "Filesystem Size Used Avail Use% Mounted\n/dev/sda1 100G 40G 60G 40% /data" →
      shared_volume_health exec_output svp = some "40G/60G (40%)") ∧
    (exec_output ["df", "-h", svp] =
        "Filesystem Used Avail Use% Size Mounted\n/dev/sda1 40G 60G 40% 100G /data" →
      shared_volume_health exec_output svp = some "40G/60G (40%)") ∧
    (∀ headerLine valueLine : String,
     ∀ used_index available_index use_percentage_index : Nat,
     ∀ used avail pct : String,
      pySplitLines (execute_cmd exec_output ["df", "-h", svp]) =
        [headerLine, valueLine] →
      (pySplitWs headerLine).indexOf? "Used" = some used_index →
      (pySplitWs headerLine).indexOf? "Avail" = some available_index →
      (pySplitWs headerLine).indexOf? "Use%" = some use_percentage_index →
      (pySplitWs valueLine).get? used_index = some used →
      (pySplitWs valueLine).get? available_index = some avail →
      (pySplitWs valueLine).get? use_percentage_index = some pct →
      shared_volume_health exec_output svp =
        some (used ++ "/" ++ avail ++ " (" ++ pct ++ ")")) := by
  refine ⟨?_, ?_, ?_⟩
  · intro h
    have hc : execute_cmd exec_output ["df", "-h", svp] =
        "Filesystem Size Used Avail Use% Mounted\n/dev/sda1 100G 40G 60G 40% /data" := by
      unfold execute_cmd
      rw [h]
      rfl
    unfold shared_volume_health
    rw [hc]
    rfl
  · intro h
    have hc : execute_cmd exec_output ["df", "-h", svp] =
        "Filesystem Used Avail Use% Size Mounted\n/dev/sda1 40G 60G 40% 100G /data" := by
      unfold execute_cmd
      rw [h]
      rfl
    unfold shared_volume_health
    rw [hc]
    rfl
  · intro headerLine valueLine ui ai pi2 used avail pct hl hu ha hp vu va vp
    unfold shared_volume_health
    rw [hl]
    simp only [bind, Option.bind, List.get?, hu, ha, hp, vu, va, vp]
    rfl

/-- A closed instance of C7: evaluating `shared_volume_health` on the
claim's concrete `df` output. -/
theorem shared_volume_health_by_header_witness :
    shared_volume_health
      (fun _ =>
        "Filesystem Size Used Avail Use% Mounted\n/dev/sda1 100G 40G 60G 40% /data")
      "/data" = some "40G/60G (40%)" :=
  (shared_volume_health_by_header
    (fun _ =>
      "Filesystem Size Used Avail Use% Mounted\n/dev/sda1 100G 40G 60G 40% /data")
    "/data").1 rfl

/-- Folding `pyDictInsert` over pairs with fresh, pairwise-distinct keys
appends them all. -/
theorem foldl_pyDictInsert_append {α : Type} (ps : List (String × α)) :
    ∀ acc : List (String × α),
      (∀ k ∈ acc.map Prod.fst, k ∉ ps.map Prod.fst) →
      (ps.map Prod.fst).Nodup →
      ps.foldl (fun d p => pyDictInsert d p.1 p.2) acc = acc ++ ps := by
  induction ps with
  | nil =>
      intro acc _ _
      simp
  | cons p rest ih =>
      intro acc hdisj hnodup
      rw [List.foldl_cons]
      have hnotin : p.1 ∉ acc.map Prod.fst := by
        intro hk
        exact hdisj p.1 hk (by simp)
      have hins : pyDictInsert acc p.1 p.2 = acc ++ [(p.1, p.2)] := by
        unfold pyDictInsert
        have hc : (acc.map Prod.fst).contains p.1 = false := by
          simpa using hnotin
        rw [hc]
        rfl
      rw [hins]
      have hdisj2 : ∀ k ∈ (acc ++ [(p.1, p.2)]).map Prod.fst,
          k ∉ rest.map Prod.fst := by
        intro k hk
        simp only [List.map_append, List.mem_append] at hk
        rcases hk with hk | hk
        · intro hr
          exact hdisj k hk (by simp [hr])
        · simp only [List.map_cons, List.map_nil, List.mem_singleton] at hk
          subst hk
          exact (List.nodup_cons.mp (by simpa using hnodup)).1
      have hnodup2 : (rest.map Prod.fst).Nodup :=
        (List.nodup_cons.mp (by simpa using hnodup)).2
      rw [ih (acc ++ [(p.1, p.2)]) hdisj2 hnodup2]
      simp

/-- A Python dict built from pairs with pairwise-distinct keys is just
the pair list. -/
theorem pyDictOfPairs_eq_self {α : Type} (ps : List (String × α))
    (h : (ps.map Prod.fst).Nodup) : pyDictOfPairs ps = ps := by
  unfold pyDictOfPairs
  rw [foldl_pyDictInsert_append ps [] (by simp) h]
  rfl

/-- Cancelling the common tail of two key concatenations: when the middle
parts come from a suffix-free vocabulary, both components agree. -/
theorem key_append_inj {A B s t tail : List Char}
    (hsuffix : ∀ u v : List Char, (u = s ∨ u = t) → (v = s ∨ v = t) →
      u <:+ v → u = v)
    (h : (A ++ s) ++ tail = (B ++ t) ++ tail) : A = B ∧ s = t := by
  have h1 : A ++ s = B ++ t := List.append_cancel_right h
  have hs1 : s <:+ B ++ t := h1 ▸ List.suffix_append A s
  have hs2 : t <:+ B ++ t := List.suffix_append B t
  have hst : s = t := by
    rcases List.suffix_or_suffix_of_suffix hs1 hs2 with hc | hc
    · exact hsuffix s t (Or.inl rfl) (Or.inr rfl) hc
    · exact (hsuffix t s (Or.inr rfl) (Or.inl rfl) hc).symm
  subst hst
  exact ⟨List.append_cancel_right h1, rfl⟩

/-- The lowercased phase vocabulary is suffix-free: none of the five
names is a proper suffix of another. -/
theorem pods_lowered_suffix_free :
    ∀ u ∈ (["running", "pending", "suceeded", "failed", "unknown"].map
      String.data),
    ∀ v ∈ (["running", "pending", "suceeded", "failed", "unknown"].map
      String.data),
    u <:+ v → u = v := by decide

/-- The `"<namespace>_<phase>_pods"` key determines both the namespace and
the (lowercased) phase. -/
theorem pods_key_inj (ns1 ns2 low1 low2 : String)
    (h1 : low1 ∈ ["running", "pending", "suceeded", "failed", "unknown"])
    (h2 : low2 ∈ ["running", "pending", "suceeded", "failed", "unknown"])
    (heq : ns1 ++ "_" ++ low1 ++ "_pods" = ns2 ++ "_" ++ low2 ++ "_pods") :
    ns1 = ns2 ∧ low1 = low2 := by
  have hdata := congrArg String.data heq
  simp only [String.data_append] at hdata
  have hsuffix : ∀ u v : List Char,
      (u = low1.data ∨ u = low2.data) → (v = low1.data ∨ v = low2.data) →
      u <:+ v → u = v := by
    intro u v hu hv
    have hu1 : u ∈ (["running", "pending", "suceeded", "failed",
        "unknown"].map String.data) := by
      rcases hu with rfl | rfl
      · exact List.mem_map_of_mem String.data h1
      · exact List.mem_map_of_mem String.data h2
    have hv1 : v ∈ (["running", "pending", "suceeded", "failed",
        "unknown"].map String.data) := by
      rcases hv with rfl | rfl
      · exact List.mem_map_of_mem String.data h1
      · exact List.mem_map_of_mem String.data h2
    exact pods_lowered_suffix_free u hu1 v hv1
  have hres := key_append_inj hsuffix hdata
  refine ⟨?_, String.ext hres.2⟩
  have hns : ns1.data ++ "_".data = ns2.data ++ "_".data := hres.1
  exact String.ext (List.append_cancel_right hns)

/-- C2 (counterexample): with the default configuration, where the
infrastructure and runtime namespace constants are equal (reana-commons
defaults `REANA_RUNTIME_KUBERNETES_NAMESPACE` to the infrastructure
namespace), the namespace set `{infra, runtime}` has one element and
`PodsStatus.get_status()` returns 5 keys, not the 10 the claim asserts
for every configuration. -/
theorem pods_get_status_ten_keys_counterexample :
    (pods_get_status "default" "default" (fun _ _ => [])).length = 5 ∧
    (pods_get_status "default" "default" (fun _ _ => [])).length ≠ 10 := by
  constructor
  · rfl
  · decide

/-- C2 (amended): `PodsStatus.get_status()` returns one key
`"<namespace>_<phase-lowercased>_pods"` per distinct (namespace, phase)
pair, every value a string: 2 × 5 = 10 keys when the infrastructure and
runtime namespace constants differ, 1 × 5 = 5 keys when they coincide. -/
theorem pods_get_status_key_count (infra runtime : String)
    (pod_listing : String → String → List String) :
    (infra ≠ runtime →
      pods_get_status infra runtime pod_listing =
        [(infra ++ "_" ++ "running" ++ "_pods",
           get_friendly_pods_by_status pod_listing "Running" infra),
         (infra ++ "_" ++ "pending" ++ "_pods",
           get_friendly_pods_by_status pod_listing "Pending" infra),
         (infra ++ "_" ++ "suceeded" ++ "_pods",
           get_friendly_pods_by_status pod_listing "Suceeded" infra),
         (infra ++ "_" ++ "failed" ++ "_pods",
           get_friendly_pods_by_status pod_listing "Failed" infra),
         (infra ++ "_" ++ "unknown" ++ "_pods",
           get_friendly_pods_by_status pod_listing "Unknown" infra),
         (runtime ++ "_" ++ "running" ++ "_pods",
           get_friendly_pods_by_status pod_listing "Running" runtime),
         (runtime ++ "_" ++ "pending" ++ "_pods",
           get_friendly_pods_by_status pod_listing "Pending" runtime),
         (runtime ++ "_" ++ "suceeded" ++ "_pods",
           get_friendly_pods_by_status pod_listing "Suceeded" runtime),
         (runtime ++ "_" ++ "failed" ++ "_pods",
           get_friendly_pods_by_status pod_listing "Failed" runtime),
         (runtime ++ "_" ++ "unknown" ++ "_pods",
           get_friendly_pods_by_status pod_listing "Unknown" runtime)] ∧
      (pods_get_status infra runtime pod_listing).length = 10) ∧
    (infra = runtime →
      (pods_get_status infra runtime pod_listing).length = 5) := by
  constructor
  · intro h
    have hns : reana_namespaces infra runtime = [infra, runtime] := by
      unfold reana_namespaces
      rw [if_neg h]
    have hinj : ∀ x ∈ ([infra, runtime] ×ˢ
        ["running", "pending", "suceeded", "failed", "unknown"]),
        ∀ y ∈ ([infra, runtime] ×ˢ
        ["running", "pending", "suceeded", "failed", "unknown"]),
        (x.1 ++ "_" ++ x.2 ++ "_pods") = (y.1 ++ "_" ++ y.2 ++ "_pods") →
        x = y := by
      intro x hx y hy hxy
      obtain ⟨x1, x2⟩ := x
      obtain ⟨y1, y2⟩ := y
      rw [List.mem_product] at hx hy
      obtain ⟨e1, e2⟩ := pods_key_inj x1 y1 x2 y2 hx.2 hy.2 hxy
      rw [e1, e2]
    have hnodupK : (([infra, runtime].flatMap (fun ns =>
        pods_statuses.map (fun status =>
          (ns ++ "_" ++ pyLower status ++ "_pods",
            get_friendly_pods_by_status pod_listing status ns)))).map
        Prod.fst).Nodup := by
      have hkeys : (([infra, runtime].flatMap (fun ns =>
          pods_statuses.map (fun status =>
            (ns ++ "_" ++ pyLower status ++ "_pods",
              get_friendly_pods_by_status pod_listing status ns)))).map
          Prod.fst) =
          ([infra, runtime] ×ˢ
            ["running", "pending", "suceeded", "failed", "unknown"]).map
            (fun q => q.1 ++ "_" ++ q.2 ++ "_pods") := rfl
      rw [hkeys]
      exact List.Nodup.map_on hinj
        (List.Nodup.product (by simp [h]) (by decide))
    have heq : pods_get_status infra runtime pod_listing =
        [infra, runtime].flatMap (fun ns =>
          pods_statuses.map (fun status =>
            (ns ++ "_" ++ pyLower status ++ "_pods",
              get_friendly_pods_by_status pod_listing status ns))) := by
      unfold pods_get_status
      rw [hns]
      exact pyDictOfPairs_eq_self _ hnodupK
    exact ⟨heq.trans rfl, by rw [heq]; rfl⟩
  · intro h
    subst h
    have hns : reana_namespaces infra infra = [infra] := by
      unfold reana_namespaces
      rw [if_pos rfl]
    have hinj : ∀ x ∈ ([infra] ×ˢ
        ["running", "pending", "suceeded", "failed", "unknown"]),
        ∀ y ∈ ([infra] ×ˢ
        ["running", "pending", "suceeded", "failed", "unknown"]),
        (x.1 ++ "_" ++ x.2 ++ "_pods") = (y.1 ++ "_" ++ y.2 ++ "_pods") →
        x = y := by
      intro x hx y hy hxy
      obtain ⟨x1, x2⟩ := x
      obtain ⟨y1, y2⟩ := y
      rw [List.mem_product] at hx hy
      obtain ⟨e1, e2⟩ := pods_key_inj x1 y1 x2 y2 hx.2 hy.2 hxy
      rw [e1, e2]
    have hnodupK : (([infra].flatMap (fun ns =>
        pods_statuses.map (fun status =>
          (ns ++ "_" ++ pyLower status ++ "_pods",
            get_friendly_pods_by_status pod_listing status ns)))).map
        Prod.fst).Nodup := by
      have hkeys : (([infra].flatMap (fun ns =>
          pods_statuses.map (fun status =>
            (ns ++ "_" ++ pyLower status ++ "_pods",
              get_friendly_pods_by_status pod_listing status ns)))).map
          Prod.fst) =
          ([infra] ×ˢ
            ["running", "pending", "suceeded", "failed", "unknown"]).map
            (fun q => q.1 ++ "_" ++ q.2 ++ "_pods") := rfl
      rw [hkeys]
      exact List.Nodup.map_on hinj
        (List.Nodup.product (by simp) (by decide))
    have heq : pods_get_status infra infra pod_listing =
        [infra].flatMap (fun ns =>
          pods_statuses.map (fun status =>
            (ns ++ "_" ++ pyLower status ++ "_pods",
              get_friendly_pods_by_status pod_listing status ns))) := by
      unfold pods_get_status
      rw [hns]
      exact pyDictOfPairs_eq_self _ hnodupK
    rw [heq]
    rfl

/-- A closed instance of C2 (amended): distinct namespaces give 10 keys,
equal namespaces give 5. -/
theorem pods_get_status_key_count_witness :
    (pods_get_status "reana-infra" "reana-runtime" (fun _ _ => [])).length =
      10 ∧
    (pods_get_status "reana" "reana" (fun _ _ => [])).length = 5 :=
  ⟨((pods_get_status_key_count "reana-infra" "reana-runtime"
      (fun _ _ => [])).1 (by decide)).2,
   (pods_get_status_key_count "reana" "reana" (fun _ _ => [])).2 rfl⟩

end Reana
